import Mathlib

/-!
Verification development for the migration-assistant bot
(`bot.py`, `logic/ai.py`, `logic/db.py`).

The Python sources are shallowly embedded as executable Lean functions.
Modelling conventions:
  * Python strings are Lean `String`/`List Char`; `str.strip`, `str.lower`
    and the regular expressions used by the source are implemented
    character-by-character for the alphabets the program actually uses
    (ASCII plus the Cyrillic block).
  * Timestamps are `Int` seconds; an SQL `INTERVAL 'd day'` is `d * 86400`
    and `date(timezone('UTC', t))` is `Int.fdiv t 86400`.
  * Database tables are explicit values: the country cache is a keyed map
    `String → Option CacheEntry` (it is unique by `country_key`), the
    `messages` table is a `List Msg` in insertion (id) order.
  * Outcomes of external calls (Perplexity HTTP call, OpenAI calls,
    Telegram sends, DB errors) are supplied by environment records; an
    exception raised by an external call is an explicit outcome and the
    Python `try`/`except`/`finally` structure is translated faithfully.
    Request payloads (prompt text) only flow outward into those calls, so
    they are absorbed by the oracle and not reproduced here.
-/

set_option maxRecDepth 20000

namespace MB

/-! ## Python string primitives -/

/-- Python whitespace (`str.strip` default set, `\s` of `re`) restricted to
its ASCII members: space, tab, LF, VT, FF, CR. -/
def pyIsSpace (c : Char) : Bool :=
  c.toNat = 32 || c.toNat = 9 || c.toNat = 10 || c.toNat = 13 ||
  c.toNat = 11 || c.toNat = 12

/-- `str.lower` on the alphabets the program uses: ASCII letters and the
Cyrillic block (А-Я, Ё). -/
def lowerChar (c : Char) : Char :=
  if 65 ≤ c.toNat ∧ c.toNat ≤ 90 then Char.ofNat (c.toNat + 32)
  else if c.toNat = 1025 then Char.ofNat 1105
  else if 1040 ≤ c.toNat ∧ c.toNat ≤ 1071 then Char.ofNat (c.toNat + 32)
  else c

def lowerL (l : List Char) : List Char := l.map lowerChar

def pyLower (s : String) : String := String.mk (lowerL s.toList)

def stripL (l : List Char) : List Char :=
  ((l.dropWhile pyIsSpace).reverse.dropWhile pyIsSpace).reverse

/-- Python `str.strip()` (no argument). -/
def pyStrip (s : String) : String := String.mk (stripL s.toList)

/-- Python `str.strip(chars)`: drop leading and trailing characters that
belong to `cs`. -/
def stripCharsL (cs : List Char) (l : List Char) : List Char :=
  ((l.dropWhile (cs.contains ·)).reverse.dropWhile (cs.contains ·)).reverse

/-- `needle` occurs as a contiguous sublist of `hay` (Python `in` on str). -/
def listIsInfix : List Char → List Char → Bool
  | n, [] => n.isEmpty
  | n, h :: t => n.isPrefixOf (h :: t) || listIsInfix n t

/-- Python `needle in hay` for strings. -/
def containsSub (hay needle : String) : Bool :=
  listIsInfix needle.toList hay.toList

/-- Python `s.startswith(p)`. -/
def pyStartsWith (s p : String) : Bool := p.toList.isPrefixOf s.toList

/-- Python `s[:n]`. -/
def pyTake (n : Nat) (s : String) : String := String.mk (s.toList.take n)

/-! ## The cache quality gate (`bot.py`, `is_country_answer_cacheable`,
the second, effective definition at lines 212-246) -/

/-- Error markers rejected by the quality gate (`bad` tuple in the source). -/
def errorMarkers : List String :=
  ["ошибка", "httpsconnectionpool", "ssleoferror", "unexpected_eof",
   "traceback", "max retries exceeded", "telegrambadrequest"]

/-- Topic-marker keywords counted by the quality gate (`markers` tuple). -/
def topicMarkers : List String :=
  ["основные способы", "типы виз", "работ", "учеб", "стоимость",
   "официальн", "дисклеймер"]

/-- One step of `re.sub(r"<[^>]+>", "", text)`: at `<` try to consume up to
the first following `>` provided at least one character lies between. -/
def stripTagsF : Nat → List Char → List Char
  | 0, l => l
  | _ + 1, [] => []
  | fuel + 1, c :: cs =>
    if c = '<' then
      let pre := cs.takeWhile (fun d => ¬ d = '>')
      if pre ≠ [] ∧ pre.length < cs.length then
        stripTagsF fuel (cs.drop (pre.length + 1))
      else c :: stripTagsF fuel cs
    else c :: stripTagsF fuel cs

/-- `re.sub(r"<[^>]+>", "", text)` — markup stripping. -/
def stripTags (l : List Char) : List Char := stripTagsF (l.length + 1) l

def isDigit18 (c : Char) : Bool := 49 ≤ c.toNat ∧ c.toNat ≤ 56

/-- Try to match `\s*[1-8]\.\s+` at the current position. On success return
the remaining input together with the last consumed character (which decides
whether the next scan position sits at a line start). -/
def matchNumMarker (l : List Char) : Option (List Char × Char) :=
  let ws := l.takeWhile pyIsSpace
  match l.drop ws.length with
  | d :: dot :: r2 =>
    if isDigit18 d ∧ dot = '.' then
      let ws2 := r2.takeWhile pyIsSpace
      if ws2 = [] then none
      else some (r2.drop ws2.length, ws2.getLastD ' ')
    else none
  | _ => none

/-- Scanner for `re.findall(r"(?m)^\s*[1-8]\.\s+", plain)`: count
non-overlapping matches; `bol` says whether the current position is the
string start or directly follows a newline (`(?m)^`). -/
def countNumF : Nat → Bool → List Char → Nat
  | 0, _, _ => 0
  | _ + 1, _, [] => 0
  | fuel + 1, bol, c :: cs =>
    if bol then
      match matchNumMarker (c :: cs) with
      | some (rest, lastWs) => 1 + countNumF fuel (lastWs = '\n') rest
      | none => countNumF fuel (c = '\n') cs
    else countNumF fuel (c = '\n') cs

/-- Number of `^\s*[1-8]\.\s+` numbered-list markers in the text. -/
def countNumMarkers (l : List Char) : Nat := countNumF (l.length + 1) true l

/-- Number of topic-marker keywords occurring in the lowercased text. -/
def countTopicMarkers (plain : List Char) : Nat :=
  (topicMarkers.filter
    (fun m => listIsInfix m.toList (lowerL plain))).length

/-- `text` contains one of the error markers (checked on
`text.strip().lower()` as in the source). -/
def hasErrorMarker (text : String) : Bool :=
  errorMarkers.any (fun m => containsSub (pyLower (pyStrip text)) m)

/-- `bot.py is_country_answer_cacheable` (effective definition,
lines 212-246). -/
def is_country_answer_cacheable (text : String) : Bool :=
  if text = "" then false
  else if hasErrorMarker text then false
  else
    let plain := stripTags text.toList
    if (stripL plain).length < 500 then false
    else if 6 ≤ countNumMarkers plain then true
    else 3 ≤ countTopicMarkers plain

/-! ## Database layer (`logic/db.py`)

Timestamps are `Int` seconds, `INTERVAL 'd day'` is `d * 86400`, and the
UTC calendar day of a timestamp is `Int.fdiv t 86400`. -/

def secondsPerDay : Int := 86400

/-- `date(timezone('UTC', t))` — the UTC calendar day of a timestamp. -/
def dayOf (t : Int) : Int := Int.fdiv t secondsPerDay

/-- `COUNTRY_CACHE_TTL_DAYS` default. -/
def COUNTRY_CACHE_TTL_DAYS : Nat := 45

/-- `MAX_MESSAGES_PER_USER` (per-dialog retention cap in `save_message`). -/
def MAX_MESSAGES_PER_USER : Nat := 200

/-- `db.py _normalize_country_key`. -/
def normalize_country_key (raw : String) : String := pyLower (pyStrip raw)

/-- A `country_info_cache` row (`country_key` is the map key; the table is
unique by key). -/
structure CacheEntry where
  query : String
  answer : String
  createdAt : Int
deriving DecidableEq

/-- The `country_info_cache` table, keyed by `country_key`. -/
def CacheStore := String → Option CacheEntry

/-- `db.py get_cached_country_info`: look the normalized key up and return
the answer only when `created_at >= now() - INTERVAL 'ttl day'`. -/
def get_cached_country_info (ttlDays : Nat) (now : Int) (db : CacheStore)
    (countryKey : String) : Option String :=
  match db (normalize_country_key countryKey) with
  | none => none
  | some e =>
    if now - (ttlDays : Int) * secondsPerDay ≤ e.createdAt then some e.answer
    else none

/-- `db.py save_cached_country_info`: upsert on the normalized key with
`created_at = now()`, then sweep every row with
`created_at < now() - INTERVAL 'ttl day'`. -/
def save_cached_country_info (ttlDays : Nat) (now : Int) (db : CacheStore)
    (countryKey countryQuery answer : String) : CacheStore :=
  let k := normalize_country_key countryKey
  fun k' =>
    let base := if k' = k then some ⟨countryQuery, answer, now⟩ else db k'
    match base with
    | none => none
    | some e =>
      if e.createdAt < now - (ttlDays : Int) * secondsPerDay then none
      else some e

/-- `db.py delete_cached_country_info`: unconditional delete of the
normalized key. -/
def delete_cached_country_info (db : CacheStore) (countryKey : String) :
    CacheStore :=
  fun k' => if k' = normalize_country_key countryKey then none else db k'

/-- `db.py add_boost_days`: the new `boost_until` value of the matched user
row, `greatest(coalesce(boost_until, now()), now()) + INTERVAL 'd day'`. -/
def add_boost_days (boostUntil : Option Int) (now : Int) (days : Int) : Int :=
  max (boostUntil.getD now) now + days * secondsPerDay

/-- A `messages` row (listed in insertion order, which is id order). -/
structure Msg where
  uid : Int
  dialogId : Int
  role : String
  text : String
  mode : String
  createdAt : Int
deriving DecidableEq

/-- Delete the `k` oldest messages of dialog `d` (the rows selected by the
`offset MAX_MESSAGES_PER_USER` subquery of `save_message`). -/
def dropOldInDialog : List Msg → Int → Nat → List Msg
  | l, _, 0 => l
  | [], _, _ + 1 => []
  | m :: rest, d, k + 1 =>
    if m.dialogId = d then dropOldInDialog rest d k
    else m :: dropOldInDialog rest d (k + 1)

/-- `db.py save_message`: insert the row with `created_at = now()`, then
keep only the newest `MAX_MESSAGES_PER_USER` rows of the dialog. -/
def save_message (store : List Msg) (uid dialogId : Int)
    (role textValue mode : String) (now : Int) : List Msg :=
  let store1 := store ++ [⟨uid, dialogId, role, textValue, mode, now⟩]
  let n := (store1.filter (fun m => m.dialogId = dialogId)).length
  dropOldInDialog store1 dialogId (n - MAX_MESSAGES_PER_USER)

/-- `db.py get_daily_user_message_count`: user-authored messages of the
given mode whose UTC calendar day is today's. -/
def get_daily_user_message_count (store : List Msg) (uid : Int)
    (mode : String) (now : Int) : Nat :=
  (store.filter (fun m =>
    m.uid = uid ∧ m.role = "user" ∧ m.mode = mode ∧
      dayOf m.createdAt = dayOf now)).length

/-! ## JSON values (results of `json.loads`) and Python coercions -/

/-- A parsed JSON value (numbers restricted to integers, which is all the
pipeline ever inspects). -/
inductive JVal where
  | null : JVal
  | bool : Bool → JVal
  | num : Int → JVal
  | str : String → JVal
  | arr : List JVal → JVal
  | obj : List (String × JVal) → JVal
deriving Inhabited

/-- Python truthiness of a JSON value. -/
def jTruthy : JVal → Bool
  | .null => false
  | .bool b => b
  | .num n => n != 0
  | .str s => !s.isEmpty
  | .arr l => !l.isEmpty
  | .obj l => !l.isEmpty

mutual

/-- Python `repr` of a JSON value (only its non-emptiness ever matters to
the pipeline). -/
def pyRepr : JVal → String
  | .null => "None"
  | .bool true => "True"
  | .bool false => "False"
  | .num n => toString n
  | .str s => "'" ++ s ++ "'"
  | .arr l => "[" ++ pyReprArr l ++ "]"
  | .obj l => "\x7b" ++ pyReprObj l ++ "\x7d"

def pyReprArr : List JVal → String
  | [] => ""
  | [v] => pyRepr v
  | v :: r => pyRepr v ++ ", " ++ pyReprArr r

def pyReprObj : List (String × JVal) → String
  | [] => ""
  | [(k, v)] => "'" ++ k ++ "': " ++ pyRepr v
  | (k, v) :: r => "'" ++ k ++ "': " ++ pyRepr v ++ ", " ++ pyReprObj r

end

/-- Python `str()` of a JSON value. -/
def pyStr (v : JVal) : String :=
  match v with
  | .str s => s
  | _ => pyRepr v

/-- `o.lookup k` — Python `dict.get(k)` (JSON objects have unique keys). -/
def jGet (o : List (String × JVal)) (k : String) : Option JVal := o.lookup k

/-- Python `d.get(k)` with the `None` default materialised as `.null`. -/
def jGetD (o : List (String × JVal)) (k : String) : JVal :=
  (jGet o k).getD .null

/-- Python `str(x or "")` applied to the result of a `dict.get`. -/
def strOrEmpty (x : Option JVal) : String :=
  match x with
  | some v => if jTruthy v then pyStr v else ""
  | none => ""

/-- Python `d[k] = v` on a dict. -/
def dictSet (o : List (String × JVal)) (k : String) (v : JVal) :
    List (String × JVal) :=
  if (o.lookup k).isSome then
    o.map (fun p => if p.1 = k then (k, v) else p)
  else o ++ [(k, v)]

/-! ## `logic/ai.py`: pure text helpers -/

/-- Scanner for `re.sub(r"\s*\[\d+\]", "", s)`: drop citation markers with
any preceding whitespace. -/
def stripCitF : Nat → List Char → List Char
  | 0, l => l
  | _ + 1, [] => []
  | fuel + 1, c :: cs =>
    let ws := (c :: cs).takeWhile pyIsSpace
    let r1 := (c :: cs).drop ws.length
    match r1 with
    | '[' :: r2 =>
      let ds := r2.takeWhile Char.isDigit
      if ds ≠ [] ∧ (r2.drop ds.length).headD ' ' = ']' then
        stripCitF fuel (r2.drop (ds.length + 1))
      else c :: stripCitF fuel cs
    | _ => c :: stripCitF fuel cs

def isSpaceTab (c : Char) : Bool := c.toNat = 32 || c.toNat = 9

/-- Scanner for `re.sub(r"[ \t]{2,}", " ", s)`. -/
def collapseSpacesF : Nat → List Char → List Char
  | 0, l => l
  | _ + 1, [] => []
  | fuel + 1, c :: cs =>
    if isSpaceTab c then
      let run := (c :: cs).takeWhile isSpaceTab
      if 2 ≤ run.length then ' ' :: collapseSpacesF fuel ((c :: cs).drop run.length)
      else c :: collapseSpacesF fuel cs
    else c :: collapseSpacesF fuel cs

/-- Scanner for `re.sub(r"\n{3,}", "\n\n", s)`. -/
def collapseNewlinesF : Nat → List Char → List Char
  | 0, l => l
  | _ + 1, [] => []
  | fuel + 1, c :: cs =>
    if c = '\n' then
      let run := (c :: cs).takeWhile (fun d => d = '\n')
      if 3 ≤ run.length then
        '\n' :: '\n' :: collapseNewlinesF fuel ((c :: cs).drop run.length)
      else run ++ collapseNewlinesF fuel ((c :: cs).drop run.length)
    else c :: collapseNewlinesF fuel cs

def isPunct (c : Char) : Bool := c = ',' || c = '.' || c = '!' || c = '?'

/-- Scanner for `re.sub(r"[ \t]+([,.!?])", r"\1", s)`. -/
def fixPunctF : Nat → List Char → List Char
  | 0, l => l
  | _ + 1, [] => []
  | fuel + 1, c :: cs =>
    if isSpaceTab c then
      let run := (c :: cs).takeWhile isSpaceTab
      let r1 := (c :: cs).drop run.length
      match r1 with
      | p :: r2 =>
        if isPunct p then p :: fixPunctF fuel r2
        else c :: fixPunctF fuel cs
      | [] => c :: fixPunctF fuel cs
    else c :: fixPunctF fuel cs

/-- `ai.py _cleanup_text`. -/
def cleanup_text (text : String) : String :=
  if text = "" then ""
  else
    let l0 := text.toList
    let l1 := stripCitF (l0.length + 1) l0
    let l2 := collapseSpacesF (l1.length + 1) l1
    let l3 := collapseNewlinesF (l2.length + 1) l2
    let l4 := fixPunctF (l3.length + 1) l3
    String.mk (stripL l4)

def obrace : Char := Char.ofNat 123

def cbrace : Char := Char.ofNat 125

/-- `ai.py _extract_json`: the stripped text itself when it is
brace-delimited, otherwise the first-`\x7b`-to-last-`\x7d` greedy match of
`re.search(r"\x7b.*\x7d", s, re.DOTALL)`. -/
def extract_json (text : String) : Option String :=
  if text = "" then none
  else
    let l := (pyStrip text).toList
    if l.headD ' ' = obrace ∧ l.getLastD ' ' = cbrace then
      some (String.mk l)
    else
      match l.findIdx? (fun c => c = obrace) with
      | none => none
      | some i =>
        let j := l.length - 1 - (l.reverse.findIdx? (fun c => c = cbrace)).getD 0
        if (l.reverse.findIdx? (fun c => c = cbrace)).isSome ∧ i < j then
          some (String.mk (stripL ((l.drop i).take (j - i + 1))))
        else none

/-- `ai.py _safe_json_loads`; `loads` is the behaviour of the standard
library `json.loads` (`none` models a raised `ValueError`). -/
def safe_json_loads (loads : String → Option JVal) (text : String) :
    Option (List (String × JVal)) :=
  match extract_json text with
  | none => none
  | some j =>
    match loads j with
    | some (.obj o) => some o
    | _ => none

/-! ## `logic/ai.py`: normalizers -/

/-- Characters stripped around candidate URLs: `"()[]<>.,;"`. -/
def urlTrimChars : List Char := ['(', ')', '[', ']', '<', '>', '.', ',', ';']

/-- `re.match(r"^https?://", u, re.IGNORECASE)` as a Boolean. -/
def matchesHttpUrl (u : String) : Bool :=
  pyStartsWith (pyLower u) "http://" || pyStartsWith (pyLower u) "https://"

/-- `ai.py _normalize_sources`. -/
def normalize_sources (v : JVal) : List String :=
  if !jTruthy v then []
  else
    match v with
    | .arr xs =>
      xs.filterMap (fun x =>
        match x with
        | .str s =>
          let u := String.mk (stripCharsL urlTrimChars (stripL s.toList))
          if u = "" then none
          else if matchesHttpUrl u then some u else none
        | _ => none)
    | _ => []

/-- `ai.py _normalize_list_str`. -/
def normalize_list_str (v : JVal) : List String :=
  if !jTruthy v then []
  else
    match v with
    | .arr xs =>
      xs.filterMap (fun x =>
        match x with
        | .str s => if pyStrip s ≠ "" then some (pyStrip s) else none
        | _ => none)
    | _ => []

/-- A normalized section, `\x7b"title": str, "body": str\x7d`. -/
structure Sect where
  title : String
  body : String
deriving DecidableEq

/-- `ai.py _normalize_sections`. -/
def normalize_sections (v : JVal) : List Sect :=
  if !jTruthy v then []
  else
    match v with
    | .arr xs =>
      xs.filterMap (fun it =>
        match it with
        | .obj o =>
          let title := pyStrip (strOrEmpty (jGet o "title"))
          let body := pyStrip (strOrEmpty (jGet o "body"))
          if title = "" ∧ body = "" then none else some ⟨title, body⟩
        | _ => none)
    | _ => []

/-! ## `logic/ai.py`: the pipeline over an external-call oracle -/

/-- Outcome of the one `_session.post` of `_perplexity_json`:
the exception classes caught by the source, or a response carrying its
status, its text body and the result of `resp.json()` (`none` models the
`ValueError` branch). -/
inductive NetResult where
  | timeout : NetResult
  | sslError : NetResult
  | connError : NetResult
  | otherExc : String → NetResult
  | response : Nat → String → Option JVal → NetResult

/-- Oracle for one pipeline run: configuration flags and the outcomes of
every external call. `jsonLoads` is the standard-library `json.loads`
(`none` models a raised `ValueError` or a non-JSON argument); `gateCall`
and `renderCall` are the `output_text` of the two OpenAI calls, `none`
modelling a raised exception. -/
structure AiEnv where
  pplxApiKey : Bool
  net : NetResult
  jsonLoads : String → Option JVal
  gateEnabled : Bool
  openaiKey : Bool
  gateCall : Option String
  renderCall : Option String

/-- The fixed redirect reply of the country-mode gate. -/
def gateDefaultCountry : String :=
  "Этот раздел — справка по стране. Напишите название страны, например: Германия или Нидерланды."

/-- The fixed redirect reply of the chat-mode gate. -/
def gateDefaultChat : String :=
  "Я специализируюсь на вопросах международной миграции и переезда (визы, ВНЖ, работа/учёба, выбор страны). " ++
  "Сформулируйте вопрос в миграционном контексте — и я помогу."

def gateDefaultReply (mode : Option String) : String :=
  if mode = some "country" then gateDefaultCountry else gateDefaultChat

/-- `ai.py _openai_domain_gate`: `none` is the Python `None` (gate absent),
otherwise `(in_scope, reply)` with the default substituted for an empty
model reply. -/
def openai_domain_gate (env : AiEnv) (userMessage : String)
    (mode : Option String) : Option (Bool × String) :=
  if !env.gateEnabled then none
  else if !env.openaiKey then none
  else if pyStrip userMessage = "" then none
  else
    match env.gateCall with
    | none => none
    | some out0 =>
      let out := pyStrip out0
      match safe_json_loads env.jsonLoads out with
      | none => none
      | some o =>
        if o.isEmpty then none
        else
          let inScope := jTruthy (jGetD o "in_scope")
          let reply := pyStrip (strOrEmpty (jGet o "reply"))
          if inScope then some (true, "")
          else some (false, if reply = "" then gateDefaultReply mode else reply)

/-- `data["choices"][0]["message"]["content"]` followed by
`(... or "").strip()`, with every possible raised exception surfaced as
`Except.error` (its message is caught by the enclosing
`except Exception`). The argument is the already-truthy `choices` value. -/
def choicesContent : JVal → Except String String
  | .arr (c :: _) =>
    (match c with
     | .obj co =>
       (match jGet co "message" with
        | some (.obj mo) =>
          (match jGet mo "content" with
           | some v =>
             if jTruthy v then
               match v with
               | .str s => .ok (pyStrip s)
               | _ => .error "AttributeError"
             else .ok ""
           | none => .error "KeyError")
        | some _ => .error "TypeError"
        | none => .error "KeyError")
     | _ => .error "TypeError")
  | .arr [] => .error "IndexError"
  | .obj _ => .error "KeyError"
  | _ => .error "TypeError"

/-- `(data.get("output_text") or "").strip()` with the possible
`AttributeError` of `.strip()` on a non-string surfaced. -/
def outputTextRaw (v : JVal) : Except String String :=
  if jTruthy v then
    match v with
    | .str s => .ok (pyStrip s)
    | _ => .error "AttributeError"
  else .ok ""

/-- The tail of `_perplexity_json` after a model text `raw` was obtained:
`obj = _safe_json_loads(raw); if not obj: return None, _cleanup_text(raw);
return obj, raw`. -/
def perplexity_finish (env : AiEnv) (raw : String) :
    Option (List (String × JVal)) × String :=
  match safe_json_loads env.jsonLoads raw with
  | some o => if o.isEmpty then (none, cleanup_text raw) else (some o, raw)
  | none => (none, cleanup_text raw)

/-- The body-shape analysis of `_perplexity_json` on a decoded JSON body. -/
def perplexity_handle_data (env : AiEnv) (data : JVal) :
    Option (List (String × JVal)) × String :=
  match data with
  | .obj o =>
    if jTruthy (jGetD o "choices") then
      match choicesContent (jGetD o "choices") with
      | .ok raw => perplexity_finish env raw
      | .error e => (none, "Ошибка при обращении к модели: " ++ e)
    else if (jGet o "output_text").isSome then
      match outputTextRaw (jGetD o "output_text") with
      | .ok raw => perplexity_finish env raw
      | .error e => (none, "Ошибка при обращении к модели: " ++ e)
    else if (jGet o "error").isSome then
      let errv := if jTruthy (jGetD o "error") then jGetD o "error" else .obj []
      match errv with
      | .obj eo =>
        (none, "Ошибка от модели: " ++
          (match jGet eo "message" with
           | some m => pyStr m
           | none => "unknown error"))
      | _ => (none, "Ошибка при обращении к модели: AttributeError")
    else (none, "Неожиданный ответ модели: " ++ pyStr data)
  | _ => (none, "Неожиданный ответ модели: " ++ pyStr data)

/-- `ai.py _perplexity_json`. The request payload (prompts, profile and
history context, truncation to `USER_MESSAGE_MAX_CHARS`) only flows into
the network call and is absorbed by `env.net`. -/
def perplexity_json (env : AiEnv) (userMessage : String)
    (_mode : Option String) (_profile : Option (List (String × String)))
    (_history : List (String × String)) :
    Option (List (String × JVal)) × String :=
  if !env.pplxApiKey then
    (none, "Ошибка: PPLX_API_KEY не найден в .env. Проверь файл .env.")
  else if pyStrip userMessage = "" then
    (none, "Пустой запрос. Напишите вопрос текстом.")
  else
    match env.net with
    | .timeout =>
      (none, "Ошибка: таймаут при обращении к сервису поиска. Попробуйте ещё раз.")
    | .sslError =>
      (none, "Сейчас не удалось подключиться к сервису поиска. Попробуйте ещё раз через минуту.")
    | .connError =>
      (none, "Сейчас не удалось подключиться к сервису поиска. Попробуйте ещё раз через минуту.")
    | .otherExc m => (none, "Ошибка при обращении к модели: " ++ m)
    | .response status body bodyJson =>
      if 400 ≤ status then
        (none, "Ошибка HTTP " ++ toString status ++ ": " ++ pyTake 1500 body)
      else
        match bodyJson with
        | none =>
          (none, "Ошибка: ответ не JSON. HTTP " ++ toString status ++ ": " ++
            pyTake 1500 body)
        | some data => perplexity_handle_data env data

/-- `ai.py _openai_render_from_json`: the rendered markup text, or `none`
when the client is missing, the call raised, or the output was empty. -/
def openai_render_from_json (env : AiEnv) (_userMessage : String)
    (_mode : Option String) (_obj : List (String × JVal)) : Option String :=
  if !env.openaiKey then none
  else
    match env.renderCall with
    | none => none
    | some out0 =>
      let out := pyStrip out0
      if out = "" then none else some (cleanup_text out)

def sectToJVal (s : Sect) : JVal :=
  .obj [("title", .str s.title), ("body", .str s.body)]

/-- `ai.py _fallback_render`. -/
def fallback_render (obj : List (String × JVal)) (mode : Option String) :
    String :=
  let sources := normalize_sources (jGetD obj "sources")
  let sections := normalize_sections (jGetD obj "sections")
  if mode = some "country" then
    let parts :=
      sections.flatMap (fun s =>
        (if pyStrip s.title ≠ "" then [pyStrip s.title] else []) ++
        (if pyStrip s.body ≠ "" then [pyStrip s.body] else [])) ++
      (if sources ≠ [] then "Источники:" :: sources.take 10 else [])
    pyStrip (String.intercalate "\n\n" (parts.filter (fun p => pyStrip p ≠ "")))
  else
    let answer := pyStrip (strOrEmpty (jGet obj "answer"))
    let clarify := normalize_list_str (jGetD obj "clarify")
    let parts :=
      (if answer ≠ "" then [answer] else []) ++
      (if clarify ≠ [] then
        "Уточню:" :: (clarify.take 2).map (fun x => "• " ++ x) else []) ++
      (if sources ≠ [] then
        "Официальные источники:" :: sources.take 10 else [])
    pyStrip (String.intercalate "\n\n" (parts.filter (fun p => pyStrip p ≠ "")))

/-- The `cleaned_obj` of `ask_llm`: the parsed dict with its `sources`,
`sections` and (outside country mode) `clarify` fields replaced by their
normalized forms. -/
def clean_obj (obj : List (String × JVal)) (mode : Option String) :
    List (String × JVal) :=
  let c1 := dictSet obj "sources"
    (.arr ((normalize_sources (jGetD obj "sources")).map .str))
  let c2 := dictSet c1 "sections"
    (.arr ((normalize_sections (jGetD c1 "sections")).map sectToJVal))
  if mode ≠ some "country" then
    dictSet c2 "clarify"
      (.arr ((normalize_list_str (jGetD c2 "clarify")).map .str))
  else c2

/-- The tail of `ask_llm` after the domain gate did not redirect. -/
def ask_llm_continue (env : AiEnv) (userMessage : String)
    (mode : Option String) (profile : Option (List (String × String)))
    (history : List (String × String)) : String :=
  match perplexity_json env userMessage mode profile history with
  | (none, err) => err
  | (some obj, _raw) =>
    let c := clean_obj obj mode
    match openai_render_from_json env userMessage mode c with
    | some r => if r = "" then fallback_render c mode else r
    | none => fallback_render c mode

/-- `ai.py ask_llm`. -/
def ask_llm (env : AiEnv) (userMessage : String) (mode : Option String)
    (profile : Option (List (String × String)))
    (history : List (String × String)) : String :=
  match openai_domain_gate env userMessage mode with
  | some (false, r) => r
  | _ => ask_llm_continue env userMessage mode profile history

/-! ## `bot.py`: rate limits, handlers, concurrency guard

The handlers are modelled as functions from a per-user bot state (busy
flag, `messages` table, country cache) and a per-request oracle to a
result carrying the final state, whether an exception escaped the handler,
and a trace of the externally observable stages in execution order.
Telegram sends of the early rejection replies are modelled as infallible;
every operation inside the handlers' `try` blocks has an explicit outcome,
and the `finally` blocks are translated faithfully. -/

def CHAT_DAILY_LIMIT : Nat := 20

def COUNTRY_DAILY_LIMIT : Nat := 10

def CHAT_DAILY_LIMIT_BOOST : Nat := 30

def COUNTRY_DAILY_LIMIT_BOOST : Nat := 20

/-- `bot.py get_effective_limits`: `boostRes` is the outcome of
`get_user_boost_until` (`none` = raised, caught and treated as no boost).
Returns `(chat_limit, country_limit, boost_until)`. -/
def get_effective_limits (boostRes : Option (Option Int)) (now : Int) :
    Nat × Nat × Option Int :=
  let boostUntil := boostRes.getD none
  let boosted : Bool := match boostUntil with
    | some t => decide (now < t)
    | none => false
  (if boosted then CHAT_DAILY_LIMIT_BOOST else CHAT_DAILY_LIMIT,
   if boosted then COUNTRY_DAILY_LIMIT_BOOST else COUNTRY_DAILY_LIMIT,
   boostUntil)

/-- Externally observable stages of a handler run. -/
inductive Ev where
  | emptyQueryReply : Ev
  | busyReply : Ev
  | quotaReply : Ev
  | adminInput : Ev
  | profileFlow : Ev
  | countryDelegate : Ev
  | menuHint : Ev
  | guardSet : Ev
  | guardRelease : Ev
  | saveUserMsg : Ev
  | saveAssistantMsg : Ev
  | cacheGet : Ev
  | sendCached : Ev
  | invalidateCache : Ev
  | llmCall : Ev
  | cacheStore : Ev
  | sendAnswer : Ev
  | againPrompt : Ev
deriving DecidableEq, Repr

/-- Per-user mutable bot state touched by the handlers. -/
structure BotState where
  busy : Bool
  store : List Msg
  cache : CacheStore

/-- Result of a handler run: whether an exception escaped, the final busy
flag, the final tables, and the stage trace. -/
structure HRes where
  exc : Bool
  busy : Bool
  store : List Msg
  cache : CacheStore
  trace : List Ev

/-- Result of a `try`-block body. -/
structure BodyRes where
  exc : Bool
  store : List Msg
  cache : CacheStore
  trace : List Ev

/-- Oracle for one `process_country_request` run. A `...Fails` field set to
`true` means the corresponding awaited call raised. -/
structure CountryEnv where
  isAdmin : Bool
  now : Int
  ttlDays : Nat
  dialogId : Int
  boostRes : Option (Option Int)
  dailyCountFails : Bool
  saveUserMsgFails : Bool
  cacheGetFails : Bool
  sendCachedFails : Bool
  deleteCacheFails : Bool
  typingFails : Bool
  thinkingFails : Bool
  llmAnswer : String
  saveCacheFails : Bool
  sendAnswerFails : Bool
  hasPopular : Bool
  againFails : Bool

/-- The replacement text substituted when the model answer starts with
`"ошибка"`. -/
def netErrorReplacement : String :=
  "Сейчас не удалось получить справку по стране из-за временной сетевой ошибки. Попробуйте ещё раз через минуту."

/-- The answer the country handler works with after the
`startswith("ошибка")` substitution applied to the model answer. -/
def effectiveCountryAnswer (env : CountryEnv) : String :=
  if pyStartsWith (pyLower (pyStrip env.llmAnswer)) "ошибка" then
    netErrorReplacement
  else env.llmAnswer

/-- The part of `process_country_request`'s `try` block after the cache
branch decided to generate a fresh answer (`t0` is the trace so far). -/
def country_rest (env : CountryEnv) (q key : String) (store : List Msg)
    (cache : CacheStore) (t0 : List Ev) : BodyRes :=
  if env.typingFails then ⟨true, store, cache, t0⟩
  else if env.thinkingFails then ⟨true, store, cache, t0⟩
  else
    let answer := effectiveCountryAnswer env
    let doCache := is_country_answer_cacheable answer
    let cache2 :=
      if doCache && !env.saveCacheFails then
        save_cached_country_info env.ttlDays env.now cache key q answer
      else cache
    let t1 := t0 ++ [Ev.llmCall] ++ (if doCache then [Ev.cacheStore] else [])
    if env.sendAnswerFails then ⟨true, store, cache2, t1⟩
    else if env.hasPopular && env.againFails then
      ⟨true, store, cache2, t1 ++ [Ev.sendAnswer]⟩
    else
      ⟨false, store, cache2,
        t1 ++ [Ev.sendAnswer] ++
          (if env.hasPopular then [Ev.againPrompt] else [])⟩

/-- The `try` block of `process_country_request`. -/
def country_body (env : CountryEnv) (q : String) (store : List Msg)
    (cache : CacheStore) : BodyRes :=
  let key := pyLower q
  let cached :=
    if env.cacheGetFails then none
    else get_cached_country_info env.ttlDays env.now cache key
  match cached with
  | some a =>
    if is_country_answer_cacheable a then
      if env.sendCachedFails then
        ⟨true, store, cache, [Ev.cacheGet, Ev.sendCached]⟩
      else if env.hasPopular && env.againFails then
        ⟨true, store, cache, [Ev.cacheGet, Ev.sendCached, Ev.againPrompt]⟩
      else
        ⟨false, store, cache,
          [Ev.cacheGet, Ev.sendCached] ++
            (if env.hasPopular then [Ev.againPrompt] else [])⟩
    else
      let cache1 :=
        if env.deleteCacheFails then cache
        else delete_cached_country_info cache key
      country_rest env q key store cache1 [Ev.cacheGet, Ev.invalidateCache]
  | none => country_rest env q key store cache [Ev.cacheGet]

/-- The country daily-usage count as `process_country_request` obtains it
(the DB call is wrapped in `try`, a raise yields `0`). -/
def countryUsedToday (env : CountryEnv) (uid : Int) (st : BotState) : Nat :=
  if env.dailyCountFails then 0
  else get_daily_user_message_count st.store uid "country" env.now

/-- The country limit effective for this request. -/
def countryLimitOf (env : CountryEnv) : Nat :=
  (get_effective_limits env.boostRes env.now).2.1

/-- `bot.py process_country_request`. -/
def process_country_request (env : CountryEnv) (uid : Int) (q0 : String)
    (st : BotState) : HRes :=
  let q := pyStrip q0
  if q = "" then ⟨false, st.busy, st.store, st.cache, [Ev.emptyQueryReply]⟩
  else if st.busy then ⟨false, st.busy, st.store, st.cache, [Ev.busyReply]⟩
  else if !env.isAdmin ∧ countryLimitOf env ≤ countryUsedToday env uid st then
    ⟨false, st.busy, st.store, st.cache, [Ev.quotaReply]⟩
  else
    let store1 :=
      if env.saveUserMsgFails then st.store
      else
        save_message st.store uid env.dialogId "user" q
          (if env.isAdmin then "admin" else "country") env.now
    let b := country_body env q store1 st.cache
    ⟨b.exc, false, b.store, b.cache,
      [Ev.saveUserMsg, Ev.guardSet] ++ b.trace ++ [Ev.guardRelease]⟩

/-- Oracle for one `echo_message` run. -/
structure ChatEnv where
  isAdmin : Bool
  adminState : Bool
  profileState : Bool
  stage : String
  userMode : Option String
  now : Int
  dialogId : Int
  boostRes : Option (Option Int)
  dailyCountFails : Bool
  saveUserMsgFails : Bool
  profileFails : Bool
  historyFails : Bool
  typingFails : Bool
  thinkingFails : Bool
  llmAnswer : String
  saveAssistFails : Bool
  sendAnswerFails : Bool

/-- The chat daily-usage count as `echo_message` obtains it. -/
def chatUsedToday (env : ChatEnv) (uid : Int) (st : BotState) : Nat :=
  if env.dailyCountFails then 0
  else get_daily_user_message_count st.store uid "chat" env.now

/-- The chat limit effective for this request. -/
def chatLimitOf (env : ChatEnv) : Nat :=
  (get_effective_limits env.boostRes env.now).1

/-- The `try` block of `echo_message`'s chat stage. -/
def chat_body (env : ChatEnv) (uid : Int) (text : String)
    (store : List Msg) (cache : CacheStore) : BodyRes :=
  let store1 :=
    if env.saveUserMsgFails then store
    else
      save_message store uid env.dialogId "user" text
        (if env.isAdmin then "admin" else "chat") env.now
  let t0 := [Ev.saveUserMsg]
  let mode := env.userMode.getD "profile"
  if mode = "profile" ∧ env.profileFails then ⟨true, store1, cache, t0⟩
  else if env.historyFails then ⟨true, store1, cache, t0⟩
  else if env.typingFails then ⟨true, store1, cache, t0⟩
  else if env.thinkingFails then ⟨true, store1, cache, t0⟩
  else
    let answer := env.llmAnswer
    let store2 :=
      if env.saveAssistFails then store1
      else save_message store1 uid env.dialogId "assistant" answer "chat" env.now
    let t1 := t0 ++ [Ev.llmCall, Ev.saveAssistantMsg]
    if env.sendAnswerFails then ⟨true, store2, cache, t1⟩
    else ⟨false, store2, cache, t1 ++ [Ev.sendAnswer]⟩

/-- `bot.py echo_message`. -/
def echo_message (env : ChatEnv) (uid : Int) (text0 : String)
    (st : BotState) : HRes :=
  if env.isAdmin && env.adminState then
    ⟨false, st.busy, st.store, st.cache, [Ev.adminInput]⟩
  else if env.profileState then
    ⟨false, st.busy, st.store, st.cache, [Ev.profileFlow]⟩
  else if env.stage = "country_info" then
    ⟨false, st.busy, st.store, st.cache, [Ev.countryDelegate]⟩
  else if env.stage ≠ "chat" then
    ⟨false, st.busy, st.store, st.cache, [Ev.menuHint]⟩
  else if !env.isAdmin ∧ chatLimitOf env ≤ chatUsedToday env uid st then
    ⟨false, st.busy, st.store, st.cache, [Ev.quotaReply]⟩
  else if st.busy then ⟨false, st.busy, st.store, st.cache, [Ev.busyReply]⟩
  else
    let b := chat_body env uid (pyStrip text0) st.store st.cache
    ⟨b.exc, false, b.store, b.cache,
      [Ev.guardSet] ++ b.trace ++ [Ev.guardRelease]⟩

/-! ## Concrete values used by witnesses -/

/-- One numbered section line, `"i. xxx…x\n"` (64 characters of plain
text, 65 with the newline). -/
def secLine (i : Nat) : String :=
  String.singleton (Char.ofNat (49 + i)) ++ ". " ++
    String.mk (List.replicate 61 'x') ++ "\n"

/-- An 8-section answer of 520 characters: sections numbered 1. to 8. -/
def eightSectionAnswer : String := String.join ((List.range 8).map secLine)

/-- A decoded HTTP body whose model text is markdown, not JSON. -/
def c7Data : JVal :=
  .obj [("choices",
    .arr [.obj [("message",
      .obj [("content", .str "**Жирный** и # Заголовок")])]])]

/-- Oracle: the retrieval call succeeds with status 200 and the markdown
model text of `c7Data`; `json.loads` raises on it. -/
def c7Env : AiEnv :=
  ⟨true, .response 200 "" (some c7Data), fun _ => none, false, false,
   none, none⟩

/-- Oracle: the gate call raises. -/
def gateFailEnv : AiEnv :=
  ⟨true, .timeout, fun _ => none, true, true, none, none⟩

/-- The parsed gate verdict `in_scope=false` with an empty reply. -/
def gateOutObj : List (String × JVal) :=
  [("in_scope", .bool false), ("reply", .str "")]

/-- Oracle: the gate call answers with an out-of-scope verdict and an
empty reply. -/
def gateOutEnv : AiEnv :=
  ⟨true, .timeout, fun _ => some (.obj gateOutObj), true, true,
   some "\x7b\"in_scope\": false, \"reply\": \"\"\x7d", none⟩

/-- A country-request oracle with no failures: non-admin, default TTL,
no boost, a short (non-cacheable) model answer, popular-countries keyboard
present. Fields: isAdmin, now, ttlDays, dialogId, boostRes,
dailyCountFails, saveUserMsgFails, cacheGetFails, sendCachedFails,
deleteCacheFails, typingFails, thinkingFails, llmAnswer, saveCacheFails,
sendAnswerFails, hasPopular, againFails. -/
def cEnvHappy : CountryEnv :=
  ⟨false, 0, 45, 1, some none, false, false, false, false, false, false,
   false, "короткий ответ", false, false, true, false⟩

/-- `cEnvHappy` with the final Telegram send raising. -/
def cEnvExc : CountryEnv := { cEnvHappy with sendAnswerFails := true }

/-- A busy user with empty tables. -/
def busySt : BotState := ⟨true, [], fun _ => none⟩

/-- An idle user with empty tables. -/
def idleSt : BotState := ⟨false, [], fun _ => none⟩

/-- One of today's user chat messages (timestamp 0). -/
def chatMsgToday : Msg := ⟨1, 1, "user", "привет", "chat", 0⟩

/-- A store holding exactly the base chat limit of today's user chat
messages. -/
def qStore : List Msg := List.replicate 20 chatMsgToday

/-- A chat oracle in the chat stage for a non-admin, non-boosted user with
no failures. Fields: isAdmin, adminState, profileState, stage, userMode,
now, dialogId, boostRes, dailyCountFails, saveUserMsgFails, profileFails,
historyFails, typingFails, thinkingFails, llmAnswer, saveAssistFails,
sendAnswerFails. -/
def chatEnv0 : ChatEnv :=
  ⟨false, false, false, "chat", none, 0, 1, some none, false, false,
   false, false, false, false, "ответ", false, false⟩

/-- A busy user whose chat quota is already exhausted. -/
def quotaBusySt : BotState := ⟨true, qStore, fun _ => none⟩

/-- A cache holding a fresh cacheable answer for "германия". -/
def c10Cache : CacheStore :=
  fun k =>
    if k = "германия" then some ⟨"Германия", eightSectionAnswer, 0⟩
    else none

/-- An idle user whose country cache already answers "германия". -/
def c10St : BotState := ⟨false, [], c10Cache⟩

/-! ## Theorems -/

/-- Claim C4: `add_boost_days` sets `boost_until` to the later of now and
the current `boost_until`, plus N days: extending an already-future boost
yields `old + N` days, extending an expired or absent boost yields
`now + N` days, and the result never stacks from a past timestamp (it is
always at least `now + N` days). -/
theorem add_boost_days_spec (b : Option Int) (now n : Int) (_hN : 0 < n) :
    (∀ old, b = some old → now < old →
      add_boost_days b now n = old + n * secondsPerDay) ∧
    (∀ old, b = some old → old ≤ now →
      add_boost_days b now n = now + n * secondsPerDay) ∧
    (b = none → add_boost_days b now n = now + n * secondsPerDay) ∧
    now + n * secondsPerDay ≤ add_boost_days b now n := by
  refine ⟨?_, ?_, ?_, ?_⟩
  · intro old hb h
    subst hb
    simp only [add_boost_days, Option.getD]
    omega
  · intro old hb h
    subst hb
    simp only [add_boost_days, Option.getD]
    omega
  · intro hb
    subst hb
    simp only [add_boost_days, Option.getD]
    omega
  · cases b <;> simp only [add_boost_days, Option.getD] <;> omega

/-- Witness for C4: extending a future boost (`boost_until = 100`, now 0)
by 7 days lands exactly on `100 + 7` days. -/
theorem add_boost_days_spec_witness :
    add_boost_days (some 100) 0 7 = 100 + 7 * secondsPerDay :=
  (add_boost_days_spec (some 100) 0 7 (by decide)).1 100 rfl (by decide)

/-- Claim C2: cache round-trip. After `save_cached_country_info` at time
`now`, a `get_cached_country_info` at time `now2` returns the stored answer
when `now2 − now ≤ TTL` and misses when the TTL has elapsed; keys are
normalized by trimming and lowercasing, so any key with the same
normalization addresses the same entry; and after a put no entry older
than the TTL survives (the put sweeps them). -/
theorem cache_roundtrip_spec (ttl : Nat) (now now2 : Int) (db : CacheStore)
    (k k2 q a : String)
    (hk : normalize_country_key k2 = normalize_country_key k) :
    (now2 - now ≤ (ttl : Int) * secondsPerDay →
      get_cached_country_info ttl now2
        (save_cached_country_info ttl now db k q a) k2 = some a) ∧
    ((ttl : Int) * secondsPerDay < now2 - now →
      get_cached_country_info ttl now2
        (save_cached_country_info ttl now db k q a) k2 = none) ∧
    (∀ k' e, save_cached_country_info ttl now db k q a k' = some e →
      now - (ttl : Int) * secondsPerDay ≤ e.createdAt) := by
  have httl : (0 : Int) ≤ (ttl : Int) * secondsPerDay :=
    mul_nonneg (Int.ofNat_nonneg ttl) (by norm_num [secondsPerDay])
  have hit :
      save_cached_country_info ttl now db k q a (normalize_country_key k2) =
        some ⟨q, a, now⟩ := by
    simp only [save_cached_country_info, hk, if_pos]
    rw [if_neg (by omega)]
  refine ⟨?_, ?_, ?_⟩
  · intro h
    simp only [get_cached_country_info, hit]
    rw [if_pos (by omega)]
  · intro h
    simp only [get_cached_country_info, hit]
    rw [if_neg (by omega)]
  · intro k' e he
    simp only [save_cached_country_info] at he
    split at he
    · simp at he
    · split at he
      · simp at he
      · cases he
        omega

/-- Witness for C2: putting under key `" Germany "` and reading back under
`"germany"` within the TTL returns the stored answer. -/
theorem cache_roundtrip_spec_witness :
    get_cached_country_info 45 100
      (save_cached_country_info 45 0 (fun _ => none) " Germany " "q" "ans")
      "germany" = some "ans" :=
  (cache_roundtrip_spec 45 0 100 (fun _ => none) " Germany " "germany" "q"
    "ans" (by decide)).1 (by decide)

/-- Claim C3: the cache quality gate rejects every answer containing a
known error marker (case-insensitively) and every answer whose
markup-stripped text is under the 500-character threshold when it shows
neither six numbered-list markers nor three topic-marker keywords; in
particular a short answer with no list markers is never cacheable, while
an 8-section answer (eight `^\s*[1-8]\.\s+` markers) above the length
threshold and free of error markers is cacheable. -/
theorem cacheable_gate_spec :
    (∀ t, hasErrorMarker t = true → is_country_answer_cacheable t = false) ∧
    (∀ t, (stripL (stripTags t.toList)).length < 500 →
      countNumMarkers (stripTags t.toList) < 6 →
      countTopicMarkers (stripTags t.toList) < 3 →
      is_country_answer_cacheable t = false) ∧
    (∀ t, (stripL (stripTags t.toList)).length < 500 →
      countNumMarkers (stripTags t.toList) = 0 →
      is_country_answer_cacheable t = false) ∧
    (∀ t, hasErrorMarker t = false →
      500 ≤ (stripL (stripTags t.toList)).length →
      8 ≤ countNumMarkers (stripTags t.toList) →
      is_country_answer_cacheable t = true) := by
  refine ⟨?_, ?_, ?_, ?_⟩
  · intro t he
    unfold is_country_answer_cacheable
    simp [he]
  · intro t hlen _ _
    unfold is_country_answer_cacheable
    simp only []
    split
    · rfl
    · split
      · rfl
      · rfl
  · intro t hlen _
    unfold is_country_answer_cacheable
    simp only []
    split
    · rfl
    · split
      · rfl
      · rfl
  · intro t he hlen hnum
    have ht : t ≠ "" := by
      intro h
      subst h
      simp [stripTags, stripTagsF, stripL, List.dropWhile] at hlen
    unfold is_country_answer_cacheable
    rw [if_neg ht, he]
    simp only [Bool.false_eq_true, if_false]
    rw [if_neg (by omega), if_pos (by omega)]

/-- Witness for C3: a pure error message is rejected, and the concrete
520-character 8-section answer is accepted. -/
theorem cacheable_gate_spec_witness :
    is_country_answer_cacheable "Ошибка HTTP 500: сбой" = false ∧
    is_country_answer_cacheable eightSectionAnswer = true :=
  ⟨cacheable_gate_spec.1 "Ошибка HTTP 500: сбой" (by decide),
   cacheable_gate_spec.2.2.2 eightSectionAnswer (by decide) (by decide)
     (by decide)⟩

/-- Claim C5: for every parsed JSON value, every entry of the normalized
sources list matches the HTTP(S)-URL pattern (after the trimming the
normalizer applied), and every normalized section is a record of string
title and string body of which at least one is non-empty; other entries
are dropped silently (the normalizers are total functions into lists,
never an error). -/
theorem normalizer_invariants (v : JVal) :
    (∀ u ∈ normalize_sources v, matchesHttpUrl u = true) ∧
    (∀ s ∈ normalize_sections v, s.title ≠ "" ∨ s.body ≠ "") := by
  constructor
  · intro u hu
    unfold normalize_sources at hu
    split at hu
    · simp at hu
    · split at hu
      · rename_i xs
        rw [List.mem_filterMap] at hu
        obtain ⟨x, _, hx⟩ := hu
        cases x <;> simp only [] at hx
        case str s =>
          split at hx
          · simp at hx
          · split at hx
            · rename_i hurl
              cases hx
              exact hurl
            · simp at hx
        all_goals exact Option.noConfusion hx
      · simp at hu
  · intro s hs
    unfold normalize_sections at hs
    split at hs
    · simp at hs
    · split at hs
      · rename_i xs
        rw [List.mem_filterMap] at hs
        obtain ⟨x, _, hx⟩ := hs
        cases x <;> simp only [] at hx
        case obj o =>
          split at hx
          · simp at hx
          · rename_i hcond
            cases hx
            rw [Classical.not_and_iff_or_not_not] at hcond
            exact hcond
        all_goals exact Option.noConfusion hx
      · simp at hs

/-- Witness for C5: a concrete payload whose only surviving source is the
trimmed URL and whose only surviving section has a non-empty title. -/
theorem normalizer_invariants_witness :
    matchesHttpUrl "https://example.com/visa" = true ∧
    ((Sect.mk "Виза" "").title ≠ "" ∨ (Sect.mk "Виза" "").body ≠ "") :=
  ⟨(normalizer_invariants (.arr [.str " (https://example.com/visa), "])).1
      "https://example.com/visa" (by decide),
   (normalizer_invariants (.arr [.obj [("title", .str "Виза")]])).2
      ⟨"Виза", ""⟩ (by decide)⟩

/-- Claim C1: for every input and every oracle, `ask_llm` returns a string
and every branch terminates in one of the enumerated string results: the
gate redirect, the retrieval error-or-fallback string, the rendered
answer, or the deterministic fallback render. (Every Python `try` of the
pipeline is translated with its `except` clauses, so no exception escapes
to the caller.) -/
theorem ask_llm_total_branches (env : AiEnv) (u : String)
    (m : Option String) (p : Option (List (String × String)))
    (h : List (String × String)) :
    ∃ s : String, ask_llm env u m p h = s ∧
      (openai_domain_gate env u m = some (false, s) ∨
       ((perplexity_json env u m p h).1 = none ∧
         s = (perplexity_json env u m p h).2) ∨
       (∃ obj raw, perplexity_json env u m p h = (some obj, raw) ∧
         ((openai_render_from_json env u m (clean_obj obj m) = some s ∧
            s ≠ "") ∨
          s = fallback_render (clean_obj obj m) m))) := by
  have hcont : ∃ s : String, ask_llm_continue env u m p h = s ∧
      (((perplexity_json env u m p h).1 = none ∧
         s = (perplexity_json env u m p h).2) ∨
       (∃ obj raw, perplexity_json env u m p h = (some obj, raw) ∧
         ((openai_render_from_json env u m (clean_obj obj m) = some s ∧
            s ≠ "") ∨
          s = fallback_render (clean_obj obj m) m))) := by
    unfold ask_llm_continue
    rcases hp : perplexity_json env u m p h with ⟨o, raw⟩
    cases o with
    | none => exact ⟨raw, rfl, Or.inl ⟨rfl, rfl⟩⟩
    | some obj =>
      simp only []
      rcases hr : openai_render_from_json env u m (clean_obj obj m)
        with _ | r
      · exact ⟨fallback_render (clean_obj obj m) m, rfl,
          Or.inr ⟨obj, raw, rfl, Or.inr rfl⟩⟩
      · simp only []
        by_cases hr0 : r = ""
        · subst hr0
          simp only [if_pos rfl]
          exact ⟨fallback_render (clean_obj obj m) m, rfl,
            Or.inr ⟨obj, raw, rfl, Or.inr rfl⟩⟩
        · rw [if_neg hr0]
          exact ⟨r, rfl, Or.inr ⟨obj, raw, rfl, Or.inl ⟨hr, hr0⟩⟩⟩
  unfold ask_llm
  rcases hg : openai_domain_gate env u m with _ | ⟨b, r⟩
  · obtain ⟨s, hs, hd⟩ := hcont
    exact ⟨s, hs, Or.inr hd⟩
  · cases b
    · exact ⟨r, rfl, Or.inl rfl⟩
    · obtain ⟨s, hs, hd⟩ := hcont
      exact ⟨s, hs, Or.inr hd⟩

/-- Claim C6: the domain gate fails open — a raised gate call or an
unparsable gate response yields an absent gate, an absent gate lets the
pipeline proceed to structured retrieval, an `in_scope=false` gate makes
the pipeline return the redirect reply, and that reply is the
model-supplied one or the fixed default when the model supplied an empty
one. -/
theorem domain_gate_fail_open (env : AiEnv) (u : String) (m : Option String)
    (p : Option (List (String × String))) (h : List (String × String)) :
    (env.gateCall = none → openai_domain_gate env u m = none) ∧
    (∀ t, env.gateCall = some t →
      safe_json_loads env.jsonLoads (pyStrip t) = none →
      openai_domain_gate env u m = none) ∧
    (openai_domain_gate env u m = none →
      ask_llm env u m p h = ask_llm_continue env u m p h) ∧
    (∀ r, openai_domain_gate env u m = some (false, r) →
      ask_llm env u m p h = r) ∧
    (∀ t o, env.gateEnabled = true → env.openaiKey = true →
      pyStrip u ≠ "" → env.gateCall = some t →
      safe_json_loads env.jsonLoads (pyStrip t) = some o →
      o.isEmpty = false →
      jTruthy (jGetD o "in_scope") = false →
      openai_domain_gate env u m =
        some (false,
          if pyStrip (strOrEmpty (jGet o "reply")) = "" then
            gateDefaultReply m
          else pyStrip (strOrEmpty (jGet o "reply")))) := by
  refine ⟨?_, ?_, ?_, ?_, ?_⟩
  · intro hgc
    unfold openai_domain_gate
    split
    · rfl
    · split
      · rfl
      · split
        · rfl
        · rw [hgc]
  · intro t hgc hjson
    unfold openai_domain_gate
    split
    · rfl
    · split
      · rfl
      · split
        · rfl
        · rw [hgc]
          simp only [hjson]
  · intro hg
    unfold ask_llm
    rw [hg]
  · intro r hg
    unfold ask_llm
    rw [hg]
  · intro t o hEn hKey hu hgc hjson ho hscope
    unfold openai_domain_gate
    rw [hEn, hKey]
    simp only [Bool.not_true, Bool.false_eq_true, if_false]
    rw [if_neg hu, hgc]
    simp only [hjson, ho, Bool.false_eq_true, if_false, hscope]

/-- Witness for C6: a raising gate call yields an absent gate and the
pipeline continues into retrieval; a parsed `in_scope=false` verdict with
an empty reply yields the fixed country default. -/
theorem domain_gate_fail_open_witness :
    openai_domain_gate gateFailEnv "Привет" (some "country") = none ∧
    ask_llm gateFailEnv "Привет" (some "country") none [] =
      ask_llm_continue gateFailEnv "Привет" (some "country") none [] ∧
    openai_domain_gate gateOutEnv "Привет" (some "country") =
      some (false, gateDefaultCountry) := by
  refine ⟨?_, ?_, ?_⟩
  · exact (domain_gate_fail_open gateFailEnv "Привет" (some "country")
      none []).1 rfl
  · exact (domain_gate_fail_open gateFailEnv "Привет" (some "country")
      none []).2.2.1
      ((domain_gate_fail_open gateFailEnv "Привет" (some "country")
        none []).1 rfl)
  · have hmain := (domain_gate_fail_open gateOutEnv "Привет"
      (some "country") none []).2.2.2.2
      "\x7b\"in_scope\": false, \"reply\": \"\"\x7d" gateOutObj rfl rfl
      (by decide) rfl rfl (by decide) (by decide)
    rw [hmain]
    rfl

/-- Claim C7 counterexample: on a successful HTTP call whose model text is
not a parsable JSON object, the retrieval step returns the cleaned raw
text — but markdown emphasis (`**`) and header markers (`#`) are *not*
stripped by the cleaner, contradicting the claim's description of the
cleaning. -/
theorem perplexity_fallback_keeps_markdown_counterexample :
    perplexity_json c7Env "Германия" (some "country") none [] =
      (none, "**Жирный** и # Заголовок") ∧
    containsSub "**Жирный** и # Заголовок" "**" = true ∧
    containsSub "**Жирный** и # Заголовок" "#" = true :=
  ⟨rfl, by decide, by decide⟩

/-- Claim C7 (amended): when the structured-retrieval HTTP call succeeds
but the model text does not parse as a single JSON object under the
brace-delimited first-to-last greedy match, the retrieval step returns the
cleaned raw text — citation markers stripped, space/tab runs collapsed,
blank-line runs collapsed, spaces before punctuation removed, ends
trimmed; markdown emphasis and header markers are left in place. -/
theorem perplexity_unparsable_returns_cleaned (env : AiEnv) (u : String)
    (m : Option String) (p : Option (List (String × String)))
    (h : List (String × String)) (status : Nat) (body raw : String)
    (data : JVal)
    (hkey : env.pplxApiKey = true) (hu : pyStrip u ≠ "")
    (hnet : env.net = .response status body (some data))
    (hst : status < 400)
    (hraw : ∃ o, data = .obj o ∧ jTruthy (jGetD o "choices") = true ∧
      choicesContent (jGetD o "choices") = .ok raw)
    (hjson : safe_json_loads env.jsonLoads raw = none) :
    perplexity_json env u m p h = (none, cleanup_text raw) := by
  obtain ⟨o, hdata, hch, hcc⟩ := hraw
  unfold perplexity_json
  rw [hkey]
  simp only [Bool.not_true, Bool.false_eq_true, if_false]
  rw [if_neg hu, hnet]
  simp only []
  rw [if_neg (by omega)]
  subst hdata
  unfold perplexity_handle_data
  simp only [hch, if_true]
  rw [hcc]
  simp only []
  unfold perplexity_finish
  rw [hjson]

/-- Witness for the amended C7: the concrete environment evaluates to the
cleaned (here: unchanged) raw text. -/
theorem perplexity_unparsable_returns_cleaned_witness :
    perplexity_json c7Env "Франция" (some "country") none [] =
      (none, cleanup_text "**Жирный** и # Заголовок") :=
  perplexity_unparsable_returns_cleaned c7Env "Франция" (some "country")
    none [] 200 "" "**Жирный** и # Заголовок" c7Data rfl (by decide) rfl
    (by decide) ⟨_, rfl, rfl, rfl⟩ rfl

/-! ### Handler helper lemmas -/

theorem dropOldInDialog_zero (l : List Msg) (d : Int) :
    dropOldInDialog l d 0 = l := by
  cases l <;> rfl

/-- A `save_message` whose dialog holds fewer than the retention cap
before the insert is a plain append. -/
theorem save_message_append (store : List Msg) (uid dialogId : Int)
    (role textValue mode : String) (now : Int)
    (hdlg : (store.filter (fun m => m.dialogId = dialogId)).length <
      MAX_MESSAGES_PER_USER) :
    save_message store uid dialogId role textValue mode now =
      store ++ [⟨uid, dialogId, role, textValue, mode, now⟩] := by
  unfold save_message
  simp only []
  have h1 :
      ((store ++ [(⟨uid, dialogId, role, textValue, mode, now⟩ : Msg)]).filter
        (fun m => m.dialogId = dialogId)).length =
      (store.filter (fun m => m.dialogId = dialogId)).length + 1 := by
    rw [List.filter_append]
    simp
  rw [h1]
  have h2 : (store.filter (fun m => m.dialogId = dialogId)).length + 1 -
      MAX_MESSAGES_PER_USER = 0 := by omega
  rw [h2]
  exact dropOldInDialog_zero _ _

/-- Inserting today's user message of the counted mode raises the daily
count by exactly one (when the dialog is under the retention cap). -/
theorem get_daily_count_after_save (store : List Msg) (uid dialogId : Int)
    (textValue mode : String) (now : Int)
    (hdlg : (store.filter (fun m => m.dialogId = dialogId)).length <
      MAX_MESSAGES_PER_USER) :
    get_daily_user_message_count
        (save_message store uid dialogId "user" textValue mode now)
        uid mode now =
      get_daily_user_message_count store uid mode now + 1 := by
  rw [save_message_append store uid dialogId "user" textValue mode now hdlg]
  unfold get_daily_user_message_count
  rw [List.filter_append]
  simp

/-- The cache-hit branch of the country `try` block: the message store is
untouched, no model call happens, and the trace starts with the cache
lookup. -/
theorem country_body_cache_hit (env : CountryEnv) (q : String)
    (store : List Msg) (cache : CacheStore) (a : String)
    (hcg : env.cacheGetFails = false)
    (hhit : get_cached_country_info env.ttlDays env.now cache (pyLower q) =
      some a)
    (hok : is_country_answer_cacheable a = true) :
    (country_body env q store cache).store = store ∧
    (country_body env q store cache).trace.take 1 = [Ev.cacheGet] ∧
    Ev.llmCall ∉ (country_body env q store cache).trace := by
  unfold country_body
  rw [hcg]
  simp only [Bool.false_eq_true, if_false, hhit, hok, if_true]
  split
  · exact ⟨rfl, rfl, by simp⟩
  · split
    · exact ⟨rfl, rfl, by simp⟩
    · refine ⟨rfl, rfl, ?_⟩
      split <;> simp

/-- Claim C8: the concurrency guard. A second request for a busy user (one
that reaches the guard) is answered with the busy reply only, runs no
pipeline and leaves all state untouched; the busy flag of a non-busy user
is `false` again after every run of either handler, whatever the oracle
did (including raised exceptions); and a busy reply can only ever be
produced for a user whose flag was set. -/
theorem busy_guard_spec :
    (∀ (env : CountryEnv) (uid : Int) (q0 : String) (st : BotState),
      pyStrip q0 ≠ "" → st.busy = true →
      (process_country_request env uid q0 st).trace = [Ev.busyReply] ∧
      (process_country_request env uid q0 st).busy = true ∧
      (process_country_request env uid q0 st).store = st.store ∧
      (process_country_request env uid q0 st).cache = st.cache ∧
      (process_country_request env uid q0 st).exc = false) ∧
    (∀ (env : ChatEnv) (uid : Int) (t : String) (st : BotState),
      (env.isAdmin && env.adminState) = false → env.profileState = false →
      env.stage = "chat" →
      (env.isAdmin = true ∨ chatUsedToday env uid st < chatLimitOf env) →
      st.busy = true →
      (echo_message env uid t st).trace = [Ev.busyReply] ∧
      (echo_message env uid t st).busy = true ∧
      (echo_message env uid t st).store = st.store ∧
      (echo_message env uid t st).exc = false) ∧
    (∀ (env : CountryEnv) (uid : Int) (q0 : String) (st : BotState),
      st.busy = false → (process_country_request env uid q0 st).busy = false) ∧
    (∀ (env : ChatEnv) (uid : Int) (t : String) (st : BotState),
      st.busy = false → (echo_message env uid t st).busy = false) ∧
    (∀ (env : CountryEnv) (uid : Int) (q0 : String) (st : BotState),
      (process_country_request env uid q0 st).trace = [Ev.busyReply] →
      st.busy = true) ∧
    (∀ (env : ChatEnv) (uid : Int) (t : String) (st : BotState),
      (echo_message env uid t st).trace = [Ev.busyReply] →
      st.busy = true) := by
  refine ⟨?_, ?_, ?_, ?_, ?_, ?_⟩
  · intro env uid q0 st hq hb
    simp [process_country_request, hq, hb]
  · intro env uid t st hadm hprof hstage hok hb
    have hq : ¬(env.isAdmin = false ∧
        chatLimitOf env ≤ chatUsedToday env uid st) := by
      rcases hok with h | h
      · simp [h]
      · intro hc
        omega
    simp [echo_message, hadm, hprof, hstage, hq, hb]
  · intro env uid q0 st hb
    unfold process_country_request
    simp only []
    split
    · exact hb
    · split
      · exact hb
      · split
        · exact hb
        · rfl
  · intro env uid t st hb
    unfold echo_message
    simp only []
    split
    · exact hb
    · split
      · exact hb
      · split
        · exact hb
        · split
          · exact hb
          · split
            · exact hb
            · split
              · exact hb
              · rfl
  · intro env uid q0 st h
    unfold process_country_request at h
    simp only [] at h
    split at h
    · simp at h
    · split at h
      · assumption
      · split at h
        · simp at h
        · simp at h
  · intro env uid t st h
    unfold echo_message at h
    simp only [] at h
    split at h
    · simp at h
    · split at h
      · simp at h
      · split at h
        · simp at h
        · split at h
          · simp at h
          · split at h
            · simp at h
            · split at h
              · assumption
              · simp at h

/-- Witness for C8: a busy user's country request yields only the busy
reply with the flag left set; an idle user's run ends with a cleared flag
even when the final send raises; the idle chat run likewise ends cleared. -/
theorem busy_guard_spec_witness :
    (process_country_request cEnvHappy 1 "Германия" busySt).trace =
      [Ev.busyReply] ∧
    (process_country_request cEnvHappy 1 "Германия" busySt).busy = true ∧
    (process_country_request cEnvExc 1 "Германия" idleSt).busy = false ∧
    (echo_message chatEnv0 1 "вопрос" idleSt).busy = false :=
  ⟨(busy_guard_spec.1 cEnvHappy 1 "Германия" busySt (by decide) rfl).1,
   (busy_guard_spec.1 cEnvHappy 1 "Германия" busySt (by decide) rfl).2.1,
   busy_guard_spec.2.2.1 cEnvExc 1 "Германия" idleSt rfl,
   busy_guard_spec.2.2.2.1 chatEnv0 1 "вопрос" idleSt rfl⟩

/-- Claim C8 counterexample: in the chat handler a busy user whose daily
quota is exhausted receives the quota reply, not the busy message — the
claimed universal "busy user receives the busy message" fails there. -/
theorem busy_user_over_quota_counterexample :
    quotaBusySt.busy = true ∧
    (echo_message chatEnv0 1 "второй вопрос" quotaBusySt).trace =
      [Ev.quotaReply] ∧
    Ev.busyReply ∉
      (echo_message chatEnv0 1 "второй вопрос" quotaBusySt).trace := by
  refine ⟨rfl, ?_, ?_⟩
  · decide
  · decide

/-- Claim C9 counterexample: in the chat handler the rate limiter runs
before the concurrency guard — a busy user over quota receives the quota
reply and no busy reply, contradicting the claimed guard-first order. -/
theorem chat_quota_before_guard_counterexample :
    quotaBusySt.busy = true ∧
    (echo_message chatEnv0 1 "вопрос" quotaBusySt).trace = [Ev.quotaReply] ∧
    Ev.busyReply ∉ (echo_message chatEnv0 1 "вопрос" quotaBusySt).trace := by
  refine ⟨rfl, ?_, ?_⟩
  · decide
  · decide

/-- Claim C9 (amended): stage order per handler. In the country handler
the concurrency guard admits first and the rate limiter runs second; in
the chat handler the rate limiter runs first and the guard second. After
admission the country handler persists the message, looks the cache up,
and on a miss runs the model call, stores a cacheable answer, sends, and
finally releases the guard; the chat handler persists, calls the model,
persists the assistant reply, sends, and releases. -/
theorem handler_stage_order :
    (∀ (env : CountryEnv) (uid : Int) (q0 : String) (st : BotState),
      pyStrip q0 ≠ "" → st.busy = true →
      (process_country_request env uid q0 st).trace = [Ev.busyReply]) ∧
    (∀ (env : CountryEnv) (uid : Int) (q0 : String) (st : BotState),
      pyStrip q0 ≠ "" → st.busy = false → env.isAdmin = false →
      countryLimitOf env ≤ countryUsedToday env uid st →
      (process_country_request env uid q0 st).trace = [Ev.quotaReply]) ∧
    (∀ (env : ChatEnv) (uid : Int) (t : String) (st : BotState),
      (env.isAdmin && env.adminState) = false → env.profileState = false →
      env.stage = "chat" → env.isAdmin = false →
      chatLimitOf env ≤ chatUsedToday env uid st →
      (echo_message env uid t st).trace = [Ev.quotaReply]) ∧
    (∀ (env : ChatEnv) (uid : Int) (t : String) (st : BotState),
      (env.isAdmin && env.adminState) = false → env.profileState = false →
      env.stage = "chat" →
      (env.isAdmin = true ∨ chatUsedToday env uid st < chatLimitOf env) →
      st.busy = true →
      (echo_message env uid t st).trace = [Ev.busyReply]) ∧
    (∀ (env : CountryEnv) (uid : Int) (q0 : String) (st : BotState),
      pyStrip q0 ≠ "" → st.busy = false →
      (env.isAdmin = true ∨
        countryUsedToday env uid st < countryLimitOf env) →
      env.cacheGetFails = false →
      get_cached_country_info env.ttlDays env.now st.cache
        (pyLower (pyStrip q0)) = none →
      env.typingFails = false → env.thinkingFails = false →
      env.sendAnswerFails = false → env.hasPopular = true →
      env.againFails = false →
      (process_country_request env uid q0 st).trace =
        [Ev.saveUserMsg, Ev.guardSet, Ev.cacheGet, Ev.llmCall] ++
          (if is_country_answer_cacheable (effectiveCountryAnswer env) then
            [Ev.cacheStore] else []) ++
          [Ev.sendAnswer, Ev.againPrompt, Ev.guardRelease] ∧
      (process_country_request env uid q0 st).busy = false) ∧
    (∀ (env : ChatEnv) (uid : Int) (t : String) (st : BotState),
      (env.isAdmin && env.adminState) = false → env.profileState = false →
      env.stage = "chat" →
      (env.isAdmin = true ∨ chatUsedToday env uid st < chatLimitOf env) →
      st.busy = false →
      env.profileFails = false → env.historyFails = false →
      env.typingFails = false → env.thinkingFails = false →
      env.sendAnswerFails = false →
      (echo_message env uid t st).trace =
        [Ev.guardSet, Ev.saveUserMsg, Ev.llmCall, Ev.saveAssistantMsg,
         Ev.sendAnswer, Ev.guardRelease] ∧
      (echo_message env uid t st).busy = false) := by
  refine ⟨?_, ?_, ?_, ?_, ?_, ?_⟩
  · intro env uid q0 st hq hb
    simp [process_country_request, hq, hb]
  · intro env uid q0 st hq hb hadm hquota
    simp [process_country_request, hq, hb, hadm, hquota]
  · intro env uid t st hadm hprof hstage hadm2 hquota
    simp [echo_message, hadm, hprof, hstage, hadm2, hquota]
  · intro env uid t st hadm hprof hstage hok hb
    have hcond : ¬(env.isAdmin = false ∧
        chatLimitOf env ≤ chatUsedToday env uid st) := by
      rcases hok with h | h
      · simp [h]
      · intro hc
        omega
    simp [echo_message, hadm, hprof, hstage, hcond, hb]
  · intro env uid q0 st hq hb hok hcg hmiss htyp hthink hsend hpop hagain
    have hcond : ¬(env.isAdmin = false ∧
        countryLimitOf env ≤ countryUsedToday env uid st) := by
      rcases hok with h | h
      · simp [h]
      · intro hc
        omega
    constructor
    · simp [process_country_request, country_body, country_rest, hq, hb,
        hcond, hcg, hmiss, htyp, hthink, hsend, hpop, hagain]
    · simp [process_country_request, hq, hb, hcond]
  · intro env uid t st hadm hprof hstage hok hb hprofF hhist htyp hthink
      hsend
    have hcond : ¬(env.isAdmin = false ∧
        chatLimitOf env ≤ chatUsedToday env uid st) := by
      rcases hok with h | h
      · simp [h]
      · intro hc
        omega
    constructor
    · simp [echo_message, chat_body, hadm, hprof, hstage, hcond, hb,
        hprofF, hhist, htyp, hthink, hsend]
    · simp [echo_message, hadm, hprof, hstage, hcond, hb]

/-- Witness for the amended C9: the no-failure country run on an empty
cache produces exactly the stated trace (the short model answer is not
cacheable, so no cache-store stage appears) and ends with the flag
cleared. -/
theorem handler_stage_order_witness :
    (process_country_request cEnvHappy 1 "Германия" idleSt).trace =
      [Ev.saveUserMsg, Ev.guardSet, Ev.cacheGet, Ev.llmCall,
       Ev.sendAnswer, Ev.againPrompt, Ev.guardRelease] ∧
    (process_country_request cEnvHappy 1 "Германия" idleSt).busy = false := by
  have h := handler_stage_order.2.2.2.2.1 cEnvHappy 1 "Германия" idleSt
    (by decide) rfl (Or.inr (by decide)) rfl rfl rfl rfl rfl rfl rfl
  refine ⟨?_, h.2⟩
  rw [h.1]
  decide

/-- Claim C10: a non-admin country request that passes the busy and quota
checks persists the user message with mode `"country"` before the cache
lookup; hence a request answered entirely from the cache (no model call)
still raises that user's daily country count by one. -/
theorem country_usage_counted_before_cache (env : CountryEnv) (uid : Int)
    (q0 : String) (st : BotState) (a : String)
    (hq : pyStrip q0 ≠ "") (hb : st.busy = false)
    (hadm : env.isAdmin = false)
    (hquota : countryUsedToday env uid st < countryLimitOf env)
    (hsave : env.saveUserMsgFails = false)
    (hcg : env.cacheGetFails = false)
    (hhit : get_cached_country_info env.ttlDays env.now st.cache
      (pyLower (pyStrip q0)) = some a)
    (hok : is_country_answer_cacheable a = true)
    (hdlg : (st.store.filter (fun m => m.dialogId = env.dialogId)).length <
      MAX_MESSAGES_PER_USER) :
    (process_country_request env uid q0 st).trace.take 3 =
      [Ev.saveUserMsg, Ev.guardSet, Ev.cacheGet] ∧
    Ev.llmCall ∉ (process_country_request env uid q0 st).trace ∧
    get_daily_user_message_count
        (process_country_request env uid q0 st).store uid "country"
        env.now =
      get_daily_user_message_count st.store uid "country" env.now + 1 := by
  have hcond : ¬(env.isAdmin = false ∧
      countryLimitOf env ≤ countryUsedToday env uid st) := by
    intro hc
    omega
  have hproc : process_country_request env uid q0 st =
      ⟨(country_body env (pyStrip q0)
          (save_message st.store uid env.dialogId "user" (pyStrip q0)
            "country" env.now) st.cache).exc, false,
       (country_body env (pyStrip q0)
          (save_message st.store uid env.dialogId "user" (pyStrip q0)
            "country" env.now) st.cache).store,
       (country_body env (pyStrip q0)
          (save_message st.store uid env.dialogId "user" (pyStrip q0)
            "country" env.now) st.cache).cache,
       [Ev.saveUserMsg, Ev.guardSet] ++
         (country_body env (pyStrip q0)
            (save_message st.store uid env.dialogId "user" (pyStrip q0)
              "country" env.now) st.cache).trace ++
         [Ev.guardRelease]⟩ := by
    simp only [process_country_request]
    rw [if_neg hq]
    simp [hb, hcond, hsave, hadm, hquota]
  obtain ⟨hst1, htake1, hmem⟩ := country_body_cache_hit env (pyStrip q0)
    (save_message st.store uid env.dialogId "user" (pyStrip q0) "country"
      env.now) st.cache a hcg hhit hok
  obtain ⟨t', ht⟩ : ∃ t',
      (country_body env (pyStrip q0)
        (save_message st.store uid env.dialogId "user" (pyStrip q0)
          "country" env.now) st.cache).trace = Ev.cacheGet :: t' := by
    rcases hT : (country_body env (pyStrip q0)
        (save_message st.store uid env.dialogId "user" (pyStrip q0)
          "country" env.now) st.cache).trace with _ | ⟨e, t'⟩
    · rw [hT] at htake1
      simp at htake1
    · rw [hT] at htake1
      simp at htake1
      exact ⟨t', by rw [htake1]⟩
  refine ⟨?_, ?_, ?_⟩
  · rw [hproc]
    simp only []
    rw [ht]
    rfl
  · rw [hproc]
    simp only []
    rw [ht] at hmem ⊢
    simp only [List.mem_append, List.mem_cons, List.mem_singleton]
    push_neg
    refine ⟨⟨by simp, by simp, ?_⟩, by simp⟩
    intro hx
    exact hmem (by simp [hx])
  · rw [hproc]
    simp only []
    rw [hst1]
    exact get_daily_count_after_save st.store uid env.dialogId
      (pyStrip q0) "country" env.now hdlg

/-- Witness for C10: a request for "Германия" answered from the cache
still raises the daily country count from 0 to 1, with no model call. -/
theorem country_usage_counted_before_cache_witness :
    (process_country_request cEnvHappy 1 " Германия" c10St).trace.take 3 =
      [Ev.saveUserMsg, Ev.guardSet, Ev.cacheGet] ∧
    Ev.llmCall ∉ (process_country_request cEnvHappy 1 " Германия" c10St).trace ∧
    get_daily_user_message_count
        (process_country_request cEnvHappy 1 " Германия" c10St).store 1
        "country" 0 =
      get_daily_user_message_count c10St.store 1 "country" 0 + 1 :=
  country_usage_counted_before_cache cEnvHappy 1 " Германия" c10St
    eightSectionAnswer (by decide) rfl rfl (by decide) rfl rfl rfl
    (by decide) (by decide)

end MB
